import Mathlib

/-!
Shallow embedding of `lambda-runtime-client/src/error.rs` from the
`aws-lambda-rust-runtime` repository, together with theorems settling the
specification claims about its error-handling module.

The Rust module defines:
* `ErrorResponse` with `ErrorResponse::new` and a generic
  `impl<T: AsFail + LambdaErrorExt + Display> From<T> for ErrorResponse`;
* `ApiError` wrapping a `failure::Context<ApiErrorKind>`, with
  `is_recoverable`, `Display`, `Fail` (cause/backtrace) and
  `LambdaErrorExt` (error_type) implementations;
* the two-variant enum `ApiErrorKind` with `#[fail(display = ...)]`
  attributes giving its `Display` rendering.

External-crate values are modelled structurally: a `failure::Backtrace`
is represented by the string its `Debug` rendering produces; a
`failure::Context<ApiErrorKind>` by the kind it carries together with the
optional cause and optional captured backtrace its accessors expose; a
value satisfying the `AsFail + LambdaErrorExt + Display` bound by the
record of the three capabilities the conversion reads from it.
-/

namespace ErrorRs

/-- A `failure::Backtrace` handle, represented by the text that
`format!("{:?}", bt)` renders for it. -/
structure Backtrace where
  debug_repr : String
deriving DecidableEq, Repr

/-- A `&dyn Fail` cause in an error chain, represented by its display text. -/
structure DynFail where
  display : String
deriving DecidableEq, Repr

/-- Removes a single trailing carriage return, as Rust `str::lines` does on a
line that was terminated by a line feed. -/
def stripCR (l : List Char) : List Char :=
  if l.getLast? = some '\r' then l.dropLast else l

/-- Accumulator-style core of Rust `str::lines`: splits at each line feed,
stripping a carriage return immediately preceding the line feed; a final
line without terminator is kept as-is, and a trailing line feed produces no
extra empty line. -/
def linesAux : List Char → List Char → List (List Char)
  | [], acc => if acc = [] then [] else [acc.reverse]
  | c :: rest, acc =>
    if c = '\n' then stripCR acc.reverse :: linesAux rest []
    else linesAux rest (c :: acc)

/-- Embedding of `format!("{:?}", stack).lines().map(ToString::to_string)
.collect::<Vec<String>>()` applied to a rendered backtrace string. -/
def rustLines (s : String) : List String :=
  (linesAux s.data []).map (fun l => String.mk l)

/-- The `ErrorResponse` struct: error envelope sent to the Runtime APIs. -/
structure ErrorResponse where
  error_message : String
  error_type : String
  stack_trace : Option (List String)
deriving DecidableEq, Repr

/-- `ErrorResponse::new`: builds the envelope, populating `stack_trace`
from the lines of the backtrace's debug rendering when a backtrace handle
is given, and leaving it `None` otherwise. -/
def ErrorResponse.new (message : String) (err_type : String)
    (backtrace : Option Backtrace) : ErrorResponse :=
  let err : ErrorResponse :=
    { error_message := message, error_type := err_type, stack_trace := none }
  match backtrace with
  | some stack => { err with stack_trace := some (rustLines stack.debug_repr) }
  | none => err

/-- A value satisfying the `AsFail + LambdaErrorExt + Display` bound of the
generic `From<T> for ErrorResponse` impl: the conversion reads its display
string, its error-type tag, and the optional backtrace of its fail view. -/
structure FailValue where
  display : String
  error_type : String
  backtrace : Option Backtrace
deriving DecidableEq, Repr

/-- The generic `impl From<T> for ErrorResponse`:
`ErrorResponse::new(format!("{}", e), e.error_type().to_owned(),
e.as_fail().backtrace())`. -/
def ErrorResponse.fromValue (e : FailValue) : ErrorResponse :=
  ErrorResponse.new e.display e.error_type e.backtrace

/-- The `ApiErrorKind` enum: failure context for `ApiError`. -/
inductive ApiErrorKind where
  | Recoverable : String → ApiErrorKind
  | Unrecoverable : String → ApiErrorKind
deriving DecidableEq, Repr

/-- Display of `ApiErrorKind`, from its `#[fail(display = ...)]`
attributes. -/
def ApiErrorKind.display : ApiErrorKind → String
  | .Recoverable m => "Recoverable API error: " ++ m
  | .Unrecoverable m => "Unrecoverable API error: " ++ m

/-- `RUNTIME_ERROR_TYPE`: error type constant declared at the top of the
module. -/
def RUNTIME_ERROR_TYPE : String := "RustRuntimeError"

/-- A `failure::Context<ApiErrorKind>`: the kind returned by
`get_context()`, plus the cause and captured backtrace its `cause()` and
`backtrace()` accessors expose. -/
structure Context where
  context : ApiErrorKind
  cause : Option DynFail
  backtrace : Option Backtrace
deriving DecidableEq, Repr

/-- `failure::Context::new(kind)`: starts a fresh chain with no cause;
whether a backtrace is captured depends on the ambient `RUST_BACKTRACE`
toggle, passed here explicitly. -/
def Context.new (kind : ApiErrorKind) (ambient : Option Backtrace) : Context :=
  { context := kind, cause := none, backtrace := ambient }

/-- `failure::Context`'s `Display` renders the carried context value. -/
def Context.display (c : Context) : String :=
  c.context.display

/-- The `ApiError` struct wrapping a `Context<ApiErrorKind>`. -/
structure ApiError where
  inner : Context
deriving DecidableEq, Repr

/-- `ApiError::is_recoverable`: exhaustive match on the inner context's
kind; `Recoverable(_)` maps to true, everything else to false. -/
def ApiError.is_recoverable (e : ApiError) : Bool :=
  match e.inner.context with
  | ApiErrorKind.Recoverable _ => true
  | _ => false

/-- `Fail::cause` for `ApiError`: delegates to `self.inner.cause()`. -/
def ApiError.cause (e : ApiError) : Option DynFail :=
  e.inner.cause

/-- `Fail::backtrace` for `ApiError`: delegates to
`self.inner.backtrace()`. -/
def ApiError.backtrace (e : ApiError) : Option Backtrace :=
  e.inner.backtrace

/-- `Display` for `ApiError`: `Display::fmt(&self.inner, f)`. -/
def ApiError.display (e : ApiError) : String :=
  e.inner.display

/-- `LambdaErrorExt::error_type` for `ApiError`: the fixed string
literal returned by the impl. -/
def ApiError.error_type (_ : ApiError) : String :=
  "RuntimeApiError"

/-- `impl From<ApiErrorKind> for ApiError`: wraps `Context::new(kind)`. -/
def ApiError.fromKind (kind : ApiErrorKind) (ambient : Option Backtrace) :
    ApiError :=
  { inner := Context.new kind ambient }

/-- `impl From<Context<ApiErrorKind>> for ApiError`: stores the given
context unchanged. -/
def ApiError.fromContext (inner : Context) : ApiError :=
  { inner := inner }

/-- A string is a well-formed single trace line when it contains no line
feed and does not end in a carriage return; such lines survive the
render/split round trip of `rustLines` unchanged. -/
def lineOk (l : String) : Prop :=
  '\n' ∉ l.data ∧ l.data.getLast? ≠ some '\r'

instance (l : String) : Decidable (lineOk l) :=
  inferInstanceAs (Decidable (_ ∧ _))

/-- Renders a list of lines as a newline-terminated block, the shape a
multi-line backtrace debug rendering takes. -/
def renderLines : List String → String
  | [] => ""
  | l :: rest => l ++ "\n" ++ renderLines rest

theorem stripCR_eq_self (l : List Char) (h : l.getLast? ≠ some '\r') :
    stripCR l = l := by
  simp [stripCR, h]

theorem linesAux_append_newline (l : List Char) :
    '\n' ∉ l → ∀ (acc rest : List Char),
      linesAux (l ++ '\n' :: rest) acc
        = stripCR (acc.reverse ++ l) :: linesAux rest [] := by
  induction l with
  | nil =>
    intro _ acc rest
    simp [linesAux]
  | cons c l ih =>
    intro hl acc rest
    have hc : ¬(c = '\n') := fun h => hl (by rw [h]; exact List.mem_cons_self _ _)
    have hl2 : '\n' ∉ l := fun h => hl (List.mem_cons_of_mem c h)
    simp only [List.cons_append, linesAux]
    rw [if_neg hc]
    show linesAux (l ++ '\n' :: rest) (c :: acc) = _
    rw [ih hl2 (c :: acc) rest]
    simp [List.append_assoc]

theorem linesAux_renderLines (ls : List String) :
    (∀ l ∈ ls, lineOk l) →
      linesAux (renderLines ls).data [] = ls.map String.data := by
  induction ls with
  | nil => intro _; rfl
  | cons l ls ih =>
    intro h
    have hl : lineOk l := h l (List.mem_cons_self _ _)
    have hrest : ∀ x ∈ ls, lineOk x := fun x hx => h x (List.mem_cons_of_mem _ hx)
    have hdata : (renderLines (l :: ls)).data
        = l.data ++ '\n' :: (renderLines ls).data := by
      show (l ++ "\n" ++ renderLines ls).data = _
      rw [String.data_append, String.data_append]
      simp
    rw [hdata, linesAux_append_newline l.data hl.1 [] (renderLines ls).data]
    simp only [List.reverse_nil, List.nil_append]
    rw [stripCR_eq_self _ hl.2, ih hrest]
    rfl

theorem rustLines_renderLines (ls : List String) (h : ∀ l ∈ ls, lineOk l) :
    rustLines (renderLines ls) = ls := by
  unfold rustLines
  rw [linesAux_renderLines ls h]
  induction ls with
  | nil => rfl
  | cons x xs ih =>
    rw [List.map_cons, List.map_cons, ih (fun y hy => h y (List.mem_cons_of_mem _ hy))]

theorem new_error_message (m t : String) (bt : Option Backtrace) :
    (ErrorResponse.new m t bt).error_message = m := by
  cases bt <;> rfl

theorem new_error_type (m t : String) (bt : Option Backtrace) :
    (ErrorResponse.new m t bt).error_type = t := by
  cases bt <;> rfl

/-- Claim C1: for every `ApiError`, `is_recoverable()` returns true if and
only if its kind is `Recoverable(_)`, and returns false if and only if its
kind is `Unrecoverable(_)` (the only other variant). -/
theorem is_recoverable_iff_recoverable_kind (e : ApiError) :
    (e.is_recoverable = true ↔ ∃ m, e.inner.context = ApiErrorKind.Recoverable m)
      ∧ (e.is_recoverable = false
          ↔ ∃ m, e.inner.context = ApiErrorKind.Unrecoverable m) := by
  rcases e with ⟨⟨k, co, bt⟩⟩
  cases k <;> simp [ApiError.is_recoverable]

/-- Claim C2: converting any source value whose backtrace accessor yields
`None` produces an envelope whose `stack_trace` field is `None`, never
`Some` of an empty sequence. -/
theorem no_backtrace_gives_none_stack_trace (e : FailValue)
    (h : e.backtrace = none) :
    (ErrorResponse.fromValue e).stack_trace = none := by
  unfold ErrorResponse.fromValue
  rw [h]
  rfl

/-- Witness for claim C2 at the spec scenario: a simple error with message
"Test error" and no backtrace yields an envelope without a stack trace. -/
theorem no_backtrace_gives_none_stack_trace_witness :
    FailValue.backtrace ⟨"Test error", "RustRuntimeError", none⟩ = none
      ∧ (ErrorResponse.fromValue
          ⟨"Test error", "RustRuntimeError", none⟩).stack_trace = none :=
  ⟨rfl, no_backtrace_gives_none_stack_trace
    ⟨"Test error", "RustRuntimeError", none⟩ rfl⟩

/-- Claim C3: there is an input with a backtrace handle present whose debug
rendering is the empty string, and there `ErrorResponse::new` produces
`stack_trace = Some` of the empty vector: the never-empty guarantee only
covers the case where the handle itself is absent. -/
theorem present_backtrace_can_give_empty_stack_trace :
    ∃ (bt : Backtrace) (m t : String),
      bt.debug_repr = ""
        ∧ (ErrorResponse.new m t (some bt)).stack_trace
            = some ([] : List String) :=
  ⟨⟨""⟩, "Test error", "RustRuntimeError", rfl, rfl⟩

/-- Claim C4: for every source value, the envelope's `error_message`
exactly equals the display rendering of that value. -/
theorem fromValue_error_message_eq_display (e : FailValue) :
    (ErrorResponse.fromValue e).error_message = e.display :=
  new_error_message e.display e.error_type e.backtrace

/-- Claim C5: `error_type()` on `ApiError` returns one fixed constant
string, the same for any two `ApiError` values, hence independent of the
`ApiErrorKind` variant. -/
theorem error_type_constant (e₁ e₂ : ApiError) :
    e₁.error_type = "RuntimeApiError" ∧ e₁.error_type = e₂.error_type :=
  ⟨rfl, rfl⟩

/-- Claim C6: when a backtrace is present, `stack_trace` is `Some` of
exactly one element per line of the backtrace's textual representation, in
order, with no filtering and no deduplication: if the debug rendering
consists of the newline-terminated lines `ls`, the field is exactly
`some ls`. -/
theorem stack_trace_lines_exact (m t : String) (bt : Backtrace)
    (ls : List String) (hrepr : bt.debug_repr = renderLines ls)
    (hok : ∀ l ∈ ls, lineOk l) :
    (ErrorResponse.new m t (some bt)).stack_trace = some ls := by
  show some (rustLines bt.debug_repr) = some ls
  rw [hrepr, rustLines_renderLines ls hok]

/-- Witness for claim C6: a three-line rendering with a duplicated line is
mapped to exactly those three lines, in order, duplicate kept. -/
theorem stack_trace_lines_exact_witness :
    (Backtrace.debug_repr ⟨"frame one\nframe two\nframe two\n"⟩
        = renderLines ["frame one", "frame two", "frame two"])
      ∧ (∀ l ∈ ["frame one", "frame two", "frame two"], lineOk l)
      ∧ (ErrorResponse.new "msg" "RustRuntimeError"
            (some ⟨"frame one\nframe two\nframe two\n"⟩)).stack_trace
          = some ["frame one", "frame two", "frame two"] :=
  ⟨by decide, by decide,
    stack_trace_lines_exact "msg" "RustRuntimeError"
      ⟨"frame one\nframe two\nframe two\n"⟩
      ["frame one", "frame two", "frame two"] (by decide) (by decide)⟩

/-- Claim C7: the display rendering of an `ApiError` is
"Recoverable API error: " followed by the message when the kind is
`Recoverable`, and "Unrecoverable API error: " followed by the message when
the kind is `Unrecoverable`, for any cause and backtrace in the chain. -/
theorem apiError_display_renders_kind (m : String) (co : Option DynFail)
    (bt : Option Backtrace) :
    (ApiError.fromContext ⟨ApiErrorKind.Recoverable m, co, bt⟩).display
        = "Recoverable API error: " ++ m
      ∧ (ApiError.fromContext ⟨ApiErrorKind.Unrecoverable m, co, bt⟩).display
          = "Unrecoverable API error: " ++ m :=
  ⟨rfl, rfl⟩

/-- Claim C8: converting the same source value twice yields two envelopes
with identical `error_message`, identical `error_type`, and the same
presence or absence of the `stack_trace` field. -/
theorem fromValue_deterministic (e : FailValue) (r₁ r₂ : ErrorResponse)
    (h₁ : r₁ = ErrorResponse.fromValue e) (h₂ : r₂ = ErrorResponse.fromValue e) :
    r₁.error_message = r₂.error_message ∧ r₁.error_type = r₂.error_type
      ∧ r₁.stack_trace.isSome = r₂.stack_trace.isSome := by
  rw [h₁, h₂]
  exact ⟨rfl, rfl, rfl⟩

/-- Witness for claim C8: two conversions of the same concrete error value
agree on message, type, and stack-trace presence. -/
theorem fromValue_deterministic_witness :
    ((ErrorResponse.fromValue ⟨"Test error", "RustRuntimeError", none⟩)
        = ErrorResponse.fromValue ⟨"Test error", "RustRuntimeError", none⟩)
      ∧ ((ErrorResponse.fromValue
            ⟨"Test error", "RustRuntimeError", none⟩).error_message
          = (ErrorResponse.fromValue
              ⟨"Test error", "RustRuntimeError", none⟩).error_message
        ∧ (ErrorResponse.fromValue
              ⟨"Test error", "RustRuntimeError", none⟩).error_type
            = (ErrorResponse.fromValue
                ⟨"Test error", "RustRuntimeError", none⟩).error_type
        ∧ (ErrorResponse.fromValue
              ⟨"Test error", "RustRuntimeError", none⟩).stack_trace.isSome
            = (ErrorResponse.fromValue
                ⟨"Test error", "RustRuntimeError", none⟩).stack_trace.isSome) :=
  ⟨rfl, fromValue_deterministic ⟨"Test error", "RustRuntimeError", none⟩
    (ErrorResponse.fromValue ⟨"Test error", "RustRuntimeError", none⟩)
    (ErrorResponse.fromValue ⟨"Test error", "RustRuntimeError", none⟩) rfl rfl⟩

/-- Claim C9: building an `ApiError` from an existing chained context
stores that context unchanged, so `cause()` and `backtrace()` return
exactly the original context's cause and captured backtrace. -/
theorem fromContext_preserves_chain (c : Context) :
    (ApiError.fromContext c).cause = c.cause
      ∧ (ApiError.fromContext c).backtrace = c.backtrace
      ∧ (ApiError.fromContext c).inner = c :=
  ⟨rfl, rfl, rfl⟩

/-- Claim C10: envelope construction is total: every value exposing a
display string, a type tag, and an optional backtrace converts to an
envelope carrying that display string as message and that tag as type. -/
theorem fromValue_total (e : FailValue) :
    ∃ r : ErrorResponse, ErrorResponse.fromValue e = r
      ∧ r.error_message = e.display ∧ r.error_type = e.error_type :=
  ⟨ErrorResponse.fromValue e, rfl,
    new_error_message e.display e.error_type e.backtrace,
    new_error_type e.display e.error_type e.backtrace⟩

end ErrorRs
